import Mathlib

/-!
Shallow embedding of the radicle-client-tools core: the `rm` command
(`src/rm/src/lib.rs`), the `auth` command (`src/auth/src/lib.rs`) and the
key helpers (`src/common/src/keys.rs`).

External library calls (librad, lexopt's argument source, the terminal
prompts, the filesystem, the ssh agent) are modelled as fields of an
environment record; every fallible external call is an `Except` or
`Option` valued field. Each function of the repository is translated into
a pure Lean function over such an environment that returns its result
together with the list of observable effects (prompts, prints, mutations)
in the order the Rust code performs them.
-/

namespace Radicle

/-- `librad::git::Urn`, kept abstract as its `encode_id()` string. -/
structure Urn where
  encodeId : String
deriving DecidableEq, Repr

/-- `librad::profile::ProfileId`, kept abstract as its string form. -/
structure ProfileId where
  id : String
deriving DecidableEq, Repr

/-- `librad::profile::Profile`: its id and the `paths().git_dir()` root. -/
structure Profile where
  id : ProfileId
  gitDir : String
deriving DecidableEq, Repr

/-- Observable effects of the two commands, in source order: terminal
output, interactive prompts, and external mutations. -/
inductive Effect where
  | warning (msg : String)
  | headline (msg : String)
  | info (msg : String)
  | successMsg (msg : String)
  | blank
  | tip
  | confirmPrompt (msg : String)
  | namePrompt
  | passphrasePrompt
  | secretPrompt
  | stdinRead
  | selectPrompt
  | untrack (urn : Urn)
  | removeDirAll (path : String)
  | removeProfile (id : ProfileId)
  | createProfile
  | sshAdd (id : ProfileId)
  | loadKey (id : ProfileId)
  | configSetup (id : ProfileId)
  | createPerson
  | setLocalPerson
  | profileSet (id : ProfileId)
deriving DecidableEq, Repr

/-- Effects that mutate persistent state (filesystem, agent, config,
active-profile pointer). -/
def Effect.isMutation : Effect → Bool
  | .untrack _ => true
  | .removeDirAll _ => true
  | .removeProfile _ => true
  | .createProfile => true
  | .sshAdd _ => true
  | .configSetup _ => true
  | .createPerson => true
  | .setLocalPerson => true
  | .profileSet _ => true
  | _ => false

/-- Effects that acquire a credential from the user (interactive secret
prompt, passphrase prompt, or a line read from standard input). -/
def Effect.isCredentialInput : Effect → Bool
  | .secretPrompt => true
  | .stdinRead => true
  | .passphrasePrompt => true
  | _ => false

/-- Effects that register a key with the external ssh agent. -/
def Effect.isAgentAdd : Effect → Bool
  | .sshAdd _ => true
  | _ => false

/-- Effects that load a key into an in-process signer. -/
def Effect.isInProcessLoad : Effect → Bool
  | .loadKey _ => true
  | _ => false

/-- Number of agent key registrations in a trace. -/
def addCount (t : List Effect) : Nat :=
  (t.filter Effect.isAgentAdd).length

/-- A trace with no persistent mutation and no credential acquisition. -/
def cleanTrace (t : List Effect) : Bool :=
  t.all fun e => !e.isMutation && !e.isCredentialInput

/-! ## `rm`: the Object classifier (`src/rm/src/lib.rs`, `enum Object`) -/

/-- `enum Object { Project(Urn), Profile(ProfileId), Unknown(String) }`. -/
inductive Object where
  | Project (urn : Urn)
  | Profile (id : ProfileId)
  | Unknown (raw : String)
deriving DecidableEq, Repr

/-- `impl From<&str> for Object`: try `Urn::from_str` first, then
`ProfileId::from_str`, else `Unknown`. The two external parsers are
passed in as functions. -/
def Object.fromStr (parseUrn : String → Option Urn)
    (parseProfileId : String → Option ProfileId) (value : String) : Object :=
  match parseUrn value with
  | some urn => Object.Project urn
  | none =>
    match parseProfileId value with
    | some id => Object.Profile id
    | none => Object.Unknown value

end Radicle

namespace Radicle

/-! ## `rm::run` -/

/-- `rm::Options`: the classified object and the `-i` prompt flag. -/
structure RmOptions where
  object : Object
  prompt : Bool
deriving Repr

/-- Environment for `rm::run`: each external call of the function, as
data. `Except String` fields model Rust `Result`s propagated with `?`. -/
structure RmEnv where
  /-- `ctx.profile()`: the active profile. -/
  ctxProfile : Except String Profile
  /-- `profile::read_only(&profile)`, success only. -/
  readOnly : Profile → Except String Unit
  /-- `project::get(&storage, urn)`: error, or whether the project exists. -/
  projectGet : Urn → Except String Bool
  /-- `term::confirm(msg)`: the user's answer to the confirmation. -/
  confirm : String → Bool
  /-- `rad_untrack::execute(...)`. -/
  untrack : Urn → Except String Unit
  /-- `fs::remove_dir_all(namespace)`. -/
  removeDirAll : String → Except String Unit
  /-- `profile::get(id)`. -/
  profileGet : ProfileId → Except String Profile
  /-- `read_only.config()`, success only. -/
  configOf : Profile → Except String Unit
  /-- `config.user_name()`. -/
  userNameOf : Profile → Except String String
  /-- `atty::is(atty::Stream::Stdin)`. -/
  stdinAtty : Bool
  /-- `term::secret_input()` result (interactive). -/
  secretInput : String
  /-- the line read from stdin in the non-interactive branch. -/
  stdinLine : String
  /-- `keys::load_secret_key(&profile, secret).is_ok()`. -/
  loadSecretKeyOk : Profile → String → Bool
  /-- `profile::remove(&profile)`. -/
  profileRemove : Profile → Except String Unit

/-- The passphrase `rm::run` and `auth::authenticate` obtain: the prompt
result when stdin is a tty, else one stdin line with `trim_end()`. -/
def obtainedSecret (stdinAtty : Bool) (secretInput stdinLine : String) : String :=
  if stdinAtty then secretInput else stdinLine.trimRight

/-- The credential-acquisition effect matching `obtainedSecret`. -/
def secretEffect (stdinAtty : Bool) : Effect :=
  if stdinAtty then Effect.secretPrompt else Effect.stdinRead

/-- `rm::run` (src/rm/src/lib.rs lines 93-160), as result plus effect
trace. -/
def rmRun (env : RmEnv) (options : RmOptions) : Except String Unit × List Effect :=
  let warn : List Effect := [Effect.warning "Experimental tool; use at your own risk!"]
  match options.object with
  | Object.Project urn =>
    match env.ctxProfile with
    | Except.error e => (Except.error e, warn)
    | Except.ok profile =>
      match env.readOnly profile with
      | Except.error e => (Except.error e, warn)
      | Except.ok _ =>
        match env.projectGet urn with
        | Except.error e => (Except.error e, warn)
        | Except.ok false =>
          (Except.error ("project " ++ urn.encodeId ++ " does not exist"), warn)
        | Except.ok true =>
          let ns := profile.gitDir ++ "/refs/namespaces/" ++ urn.encodeId
          let msg := "Are you sure you would like to delete " ++ ns ++ "?"
          let confirmTrace := if options.prompt then [Effect.confirmPrompt msg] else []
          if !options.prompt || env.confirm msg then
            match env.untrack urn with
            | Except.error e => (Except.error e, warn ++ confirmTrace ++ [Effect.untrack urn])
            | Except.ok _ =>
              match env.removeDirAll ns with
              | Except.error e =>
                (Except.error e,
                  warn ++ confirmTrace ++ [Effect.untrack urn, Effect.removeDirAll ns])
              | Except.ok _ =>
                (Except.ok (),
                  warn ++ confirmTrace ++
                    [Effect.untrack urn, Effect.removeDirAll ns,
                      Effect.successMsg ("Successfully removed project " ++ urn.encodeId)])
          else
            (Except.ok (), warn ++ confirmTrace)
  | Object.Profile id =>
    match env.ctxProfile with
    | Except.error e => (Except.error e, warn)
    | Except.ok profile =>
      if profile.id = id then
        (Except.error "Cannot remove active profile; see `rad auth --help`", warn)
      else
        match env.profileGet id with
        | Except.error e => (Except.error e, warn)
        | Except.ok target =>
          match env.readOnly target with
          | Except.error e => (Except.error e, warn)
          | Except.ok _ =>
            match env.configOf target with
            | Except.error e => (Except.error e, warn)
            | Except.ok _ =>
              match env.userNameOf target with
              | Except.error e => (Except.error e, warn)
              | Except.ok username =>
                let msg := "Are you sure you would like to delete " ++ id.id ++
                  " (" ++ username ++ ")?"
                let confirmTrace := if options.prompt then [Effect.confirmPrompt msg] else []
                if !options.prompt || env.confirm msg then
                  let secret := obtainedSecret env.stdinAtty env.secretInput env.stdinLine
                  let credTrace := [secretEffect env.stdinAtty]
                  if env.loadSecretKeyOk target secret then
                    match env.profileRemove target with
                    | Except.error e =>
                      (Except.error e,
                        warn ++ confirmTrace ++ credTrace ++ [Effect.removeProfile id])
                    | Except.ok _ =>
                      (Except.ok (),
                        warn ++ confirmTrace ++ credTrace ++
                          [Effect.removeProfile id,
                            Effect.successMsg ("Successfully removed profile " ++ id.id)])
                  else
                    (Except.error "Invalid passphrase supplied.",
                      warn ++ confirmTrace ++ credTrace)
                else
                  (Except.ok (), warn ++ confirmTrace)
  | Object.Unknown arg =>
    (Except.error ("Object must be an Urn or a profile id: " ++ arg), warn)

/-! ## `auth`: option parsing (`src/auth/src/lib.rs`, `Options::from_args`) -/

/-- `auth::Options` as produced by `Options::from_args`. -/
structure AuthOptions where
  init : Bool
  active : Bool
  name : Option String
  passphrase : Option String
  profile : Option ProfileId
deriving DecidableEq, Repr

/-- lexopt's test that an argument begins with a dash: its first
character is '-'. -/
def dashPrefixed (a : String) : Bool :=
  match a.data with
  | '-' :: _ => true
  | _ => false

/-- lexopt's test for a long option: the argument begins with "--". -/
def longPrefixed (a : String) : Bool :=
  match a.data with
  | '-' :: '-' :: _ => true
  | _ => false

/-- A value-taking option (`--name` or `--passphrase`) that still awaits
its value: lexopt's `parser.value()` consumes the next raw argument. -/
inductive PendingVal where
  | forName
  | forPass
deriving DecidableEq, Repr

/-- One step per argument of the lexopt loop in `Options::from_args`
(src/auth/src/lib.rs lines 48-116). `sep` records that a `--` separator
was seen (lexopt then yields every remaining argument as a positional
value); `pending` records a value-taking option whose value is the next
raw argument; an attached `=value` on a flag that never consumes it makes
the following `parser.next()` fail in lexopt, which this model folds into
an immediate error since the loop propagates that error unchanged. -/
def authParseGo (pid : String → Option ProfileId) (args : List String)
    (pending : Option PendingVal) (sep ini act : Bool)
    (name passphrase : Option String) (profile : Option ProfileId) :
    Except String AuthOptions :=
  match args with
  | [] =>
    match pending with
    | some PendingVal.forName => Except.error "missing value for option --name"
    | some PendingVal.forPass => Except.error "missing value for option --passphrase"
    | none => Except.ok ⟨ini, act, name, passphrase, profile⟩
  | a :: rest =>
    match pending with
    | some PendingVal.forName =>
      authParseGo pid rest none sep ini act (some a) passphrase profile
    | some PendingVal.forPass =>
      authParseGo pid rest none sep ini act name (some a) profile
    | none =>
      if sep || !dashPrefixed a || a == "-" then
        match pid a with
        | some v => authParseGo pid rest none sep ini act name passphrase (some v)
        | none => Except.error "invalid profile id specified"
      else if a == "--" then
        authParseGo pid rest none true ini act name passphrase profile
      else if a == "--init" then
        authParseGo pid rest none sep true act name passphrase profile
      else if a == "--active" then
        authParseGo pid rest none sep ini true name passphrase profile
      else if a == "--name" then
        if ini && name.isNone then
          authParseGo pid rest (some PendingVal.forName) sep ini act name passphrase profile
        else Except.error "unexpected argument --name"
      else if a == "--passphrase" then
        if ini && passphrase.isNone then
          authParseGo pid rest (some PendingVal.forPass) sep ini act name passphrase profile
        else Except.error "unexpected argument --passphrase"
      else if a == "--help" then
        Except.error "help requested"
      else if longPrefixed a then
        let body := a.drop 2
        let oname := String.mk (body.data.takeWhile fun c => c != '=')
        if oname.data.length < body.data.length then
          let attached := body.drop (oname.data.length + 1)
          if oname == "name" then
            if ini && name.isNone then
              authParseGo pid rest none sep ini act (some attached) passphrase profile
            else Except.error "unexpected argument --name"
          else if oname == "passphrase" then
            if ini && passphrase.isNone then
              authParseGo pid rest none sep ini act name (some attached) profile
            else Except.error "unexpected argument --passphrase"
          else if oname == "help" then
            Except.error "help requested"
          else if oname == "init" || oname == "active" then
            Except.error ("unexpected value for option --" ++ oname)
          else Except.error ("unexpected argument --" ++ oname)
        else Except.error ("unexpected argument --" ++ oname)
      else
        Except.error ("unexpected argument " ++ a)

/-- `auth::Options::from_args` over a vector of (UTF-8) arguments. -/
def authFromArgs (pid : String → Option ProfileId) (args : List String) :
    Except String AuthOptions :=
  authParseGo pid args none false false false none none none

/-! ## `auth`: run / init / authenticate -/

/-- Rust `char::is_whitespace` (the Unicode White_Space property). -/
def rustIsWhitespace (c : Char) : Bool :=
  c == ' ' || c == '\t' || c == '\n' || c.val == 0x0B || c.val == 0x0C || c == '\r' ||
  c.val == 0x85 || c.val == 0xA0 || c.val == 0x1680 ||
  (0x2000 ≤ c.val && c.val ≤ 0x200A) ||
  c.val == 0x2028 || c.val == 0x2029 || c.val == 0x202F || c.val == 0x205F || c.val == 0x3000

/-- `auth::sanitize_name` (src/auth/src/lib.rs lines 299-304):
`name.contains(char::is_whitespace)` iterates the characters of the
name. -/
def sanitize_name (name : String) : Except String String :=
  if name.data.any rustIsWhitespace then Except.error "Name cannot contain whitespaces"
  else Except.ok name

/-- The set of profile keys the external ssh agent currently holds
ready, threaded through provisioning calls. -/
abbrev AgentState := List ProfileId

/-- Environment for the `auth` command: each external call, as data. -/
structure AuthEnv where
  /-- `profile::list()`. -/
  profileList : Except String (List Profile)
  /-- `keys::ssh_auth_sock()`: whether an agent socket is reachable. -/
  sshAuthSock : Except String Unit
  /-- `git::check_version().is_ok()`. -/
  gitVersionOk : Bool
  /-- `term::text_input("Name", None)` result. -/
  nameInput : String
  /-- `term::secret_input_with_confirmation()` result. -/
  passphraseInput : String
  /-- `profile::create(home, pwhash)`: the new profile and its peer id. -/
  profileCreate : Except String (Profile × String)
  /-- `keys::add(&profile, pwhash, sock)` in `init`. -/
  initSshAdd : Profile → Except String Unit
  /-- `sock.to_signer(...)` / `secret_key.to_signer(...)`. -/
  toSigner : Profile → Except String Unit
  /-- `keys::load_secret_key(&profile, passphrase)` in `init`. -/
  loadSecretKey : Profile → String → Except String Unit
  /-- `config::Config::init(&profile)`. -/
  configSetup : Profile → Except String Unit
  /-- `keys::storage(&profile, signer)`. -/
  keysStorage : Profile → Except String Unit
  /-- `person::create(&profile, &name, ...)`: the person's urn. -/
  personCreate : Profile → String → Except String String
  /-- `person::set_local(&storage, &person)`. -/
  personSetLocal : Except String Unit
  /-- `ctx.profile()`: the active profile. -/
  ctxProfile : Except String Profile
  /-- `profile::read_only(selection)`, success only. -/
  readOnly : Profile → Except String Unit
  /-- `read_only.config()`, success only. -/
  configOf : Profile → Except String Unit
  /-- `config.user()`. -/
  configUser : Profile → Except String (Option String)
  /-- `config.user_name()`. -/
  userNameOf : Profile → Except String String
  /-- `term::profile_select(profiles, &profile)`: the user's choice, or
  `none` on cancellation. -/
  profileSelect : Option Profile
  /-- `profile::set(id)`. -/
  profileSet : ProfileId → Except String Unit
  /-- `atty::is(atty::Stream::Stdin)`. -/
  stdinAtty : Bool
  /-- `term::secret_input()` result. -/
  secretInput : String
  /-- the line read from stdin in the non-interactive branch. -/
  stdinLine : String
  /-- whether the `rad_profile::ssh_ready` agent round-trip succeeds. -/
  agentQueryOk : Bool
  /-- whether `keys::add` with the prompted passphrase succeeds. -/
  addOk : ProfileId → Bool

/-- The name `auth::init` validates: the `--name` value if given, else the
interactive input. -/
def resolvedName (options : AuthOptions) (env : AuthEnv) : String :=
  match options.name with
  | some n => n
  | none => env.nameInput

/-- The passphrase `auth::init` uses: the `--passphrase` value if given,
else the confirmed interactive input. -/
def resolvedPassphrase (options : AuthOptions) (env : AuthEnv) : String :=
  match options.passphrase with
  | some p => p
  | none => env.passphraseInput

/-- The key-provisioning block of `auth::authenticate`
(src/auth/src/lib.rs lines 271-294): if an agent socket is reachable and
the agent does not yet hold the profile's key, obtain a passphrase and
register the key; if it already holds it, report so and do nothing. -/
def ensureReady (env : AuthEnv) (st : AgentState) (profile : Profile) :
    Except String Unit × AgentState × List Effect :=
  match env.sshAuthSock with
  | Except.error _ => (Except.ok (), st, [])
  | Except.ok _ =>
    if !env.agentQueryOk then
      (Except.error "could not lookup ssh key", st, [])
    else if profile.id ∈ st then
      (Except.ok (), st, [Effect.successMsg "Signing key already in ssh-agent"])
    else
      let t := [Effect.warning "Adding your radicle key to ssh-agent...",
        secretEffect env.stdinAtty]
      if env.addOk profile.id then
        (Except.ok (), profile.id :: st,
          t ++ [Effect.sshAdd profile.id,
            Effect.successMsg "Radicle key added to ssh-agent"])
      else
        (Except.error "invalid passphrase supplied", st, t)

/-- Outcome of the `selection` expression in `auth::authenticate`. -/
inductive Selection where
  | chosen (p : Profile)
  | cancelled
  | failed (e : String)
deriving DecidableEq, Repr

/-- The `selection` expression of `auth::authenticate`
(src/auth/src/lib.rs lines 235-248): explicit id lookup, else interactive
choice when several profiles exist and `--active` was not given, else the
active profile. -/
def selectProfile (env : AuthEnv) (profiles : List Profile) (options : AuthOptions)
    (profile : Profile) : Selection :=
  match options.profile with
  | some id =>
    match profiles.find? (fun p => decide (p.id = id)) with
    | some p => Selection.chosen p
    | none => Selection.failed ("profile '" ++ id.id ++ "' not found")
  | none =>
    if profiles.length > 1 && !options.active then
      match env.profileSelect with
      | some p => Selection.chosen p
      | none => Selection.cancelled
    else Selection.chosen profile

/-- Activation and provisioning tail of `auth::authenticate`
(src/auth/src/lib.rs lines 263-296). -/
def authActivate (env : AuthEnv) (st : AgentState) (t : List Effect)
    (selection profile : Profile) : Except String Unit × AgentState × List Effect :=
  if selection.id ≠ profile.id then
    match env.profileSet selection.id with
    | Except.error e => (Except.error e, st, t)
    | Except.ok _ =>
      let t2 := t ++ [Effect.profileSet selection.id,
        Effect.successMsg ("Profile " ++ selection.id.id ++ " activated")]
      let r := ensureReady env st selection
      (r.1, r.2.1, t2 ++ r.2.2)
  else
    let r := ensureReady env st selection
    (r.1, r.2.1, t ++ r.2.2)

/-- Config-reading tail of `auth::authenticate`
(src/auth/src/lib.rs lines 250-261). -/
def authAuthTail (env : AuthEnv) (st : AgentState) (t : List Effect)
    (selection profile : Profile) : Except String Unit × AgentState × List Effect :=
  match env.readOnly selection with
  | Except.error e => (Except.error e, st, t)
  | Except.ok _ =>
    match env.configOf selection with
    | Except.error e => (Except.error e, st, t)
    | Except.ok _ =>
      match env.configUser selection with
      | Except.error e => (Except.error e, st, t)
      | Except.ok none => authActivate env st t selection profile
      | Except.ok (some user) =>
        match env.userNameOf selection with
        | Except.error e => (Except.error e, st, t)
        | Except.ok username =>
          authActivate env st
            (t ++ [Effect.headline ("Authenticating as " ++ user ++
              " (" ++ username ++ ")")])
            selection profile

/-- `auth::authenticate` (src/auth/src/lib.rs lines 213-297). -/
def authAuthenticate (env : AuthEnv) (st : AgentState) (profiles : List Profile)
    (options : AuthOptions) : Except String Unit × AgentState × List Effect :=
  match env.ctxProfile with
  | Except.error _ =>
    (Except.error "Active profile could not be loaded. To create a new profile, run `rad auth --init`.",
      st, [])
  | Except.ok profile =>
    let infoTrace :=
      if !options.active && options.profile.isNone then
        [Effect.info ("Your active profile is " ++ profile.id.id)]
      else []
    let selTrace :=
      if options.profile.isNone && (profiles.length > 1 && !options.active) then
        [Effect.selectPrompt]
      else []
    let t0 := infoTrace ++ selTrace
    match selectProfile env profiles options profile with
    | Selection.failed e => (Except.error e, st, t0)
    | Selection.cancelled => (Except.ok (), st, t0)
    | Selection.chosen selection => authAuthTail env st t0 selection profile

/-- Final stages of `auth::init` after the signer is obtained
(src/auth/src/lib.rs lines 180-210). -/
def authInitTail (env : AuthEnv) (st : AgentState) (t : List Effect)
    (profile : Profile) (peerId name : String) :
    Except String Unit × AgentState × List Effect :=
  match env.configSetup profile with
  | Except.error e => (Except.error e, st, t)
  | Except.ok _ =>
    let t2 := t ++ [Effect.configSetup profile.id]
    match env.keysStorage profile with
    | Except.error e => (Except.error e, st, t2)
    | Except.ok _ =>
      match env.personCreate profile name with
      | Except.error e =>
        (Except.error ("could not create identity document: " ++ e), st, t2)
      | Except.ok urn =>
        let t3 := t2 ++ [Effect.createPerson]
        match env.personSetLocal with
        | Except.error e => (Except.error e, st, t3)
        | Except.ok _ =>
          (Except.ok (), st,
            t3 ++ [Effect.setLocalPerson,
              Effect.successMsg ("Profile " ++ profile.id.id ++ " created."),
              Effect.blank,
              Effect.info ("Your radicle Peer ID is " ++ peerId),
              Effect.info ("Your personal URN is " ++ urn),
              Effect.blank, Effect.tip])

/-- `auth::init` (src/auth/src/lib.rs lines 135-211): headline, git
version warning, name (flag or prompt) sanitized, passphrase (flag or
prompt), keypair + profile creation, signer via agent registration or
in-process key load, then config and identity document. -/
def authInitCmd (env : AuthEnv) (st : AgentState) (options : AuthOptions) :
    Except String Unit × AgentState × List Effect :=
  let t0 := [Effect.headline "Initializing your profile and identity"]
  let gitTrace :=
    if env.gitVersionOk then []
    else [Effect.warning "Your git version is unsupported", Effect.blank]
  let nameTrace := if options.name.isSome then [] else [Effect.namePrompt]
  match sanitize_name (resolvedName options env) with
  | Except.error e => (Except.error e, st, t0 ++ gitTrace ++ nameTrace)
  | Except.ok name =>
    let passTrace := if options.passphrase.isSome then [] else [Effect.passphrasePrompt]
    let passphrase := resolvedPassphrase options env
    let t1 := t0 ++ gitTrace ++ nameTrace ++ passTrace
    match env.profileCreate with
    | Except.error e => (Except.error e, st, t1)
    | Except.ok (profile, peerId) =>
      let t2 := t1 ++ [Effect.createProfile]
      match env.sshAuthSock with
      | Except.ok _ =>
        match env.initSshAdd profile with
        | Except.error e => (Except.error e, st, t2)
        | Except.ok _ =>
          let st2 := profile.id :: st
          let t3 := t2 ++ [Effect.sshAdd profile.id]
          match env.toSigner profile with
          | Except.error e => (Except.error e, st2, t3)
          | Except.ok _ => authInitTail env st2 t3 profile peerId name
      | Except.error _ =>
        match env.loadSecretKey profile passphrase with
        | Except.error e => (Except.error e, st, t2)
        | Except.ok _ =>
          let t3 := t2 ++ [Effect.loadKey profile.id]
          match env.toSigner profile with
          | Except.error e => (Except.error e, st, t3)
          | Except.ok _ => authInitTail env st t3 profile peerId name

/-- `auth::run` (src/auth/src/lib.rs lines 119-133): a failed
`profile::list()` is replaced by the empty list; `--init` or an empty
profile list leads to initialization (after rejecting an explicit
profile id), anything else to authentication. -/
def authRun (env : AuthEnv) (st : AgentState) (options : AuthOptions) :
    Except String Unit × AgentState × List Effect :=
  let profiles := match env.profileList with
    | Except.ok ps => ps
    | Except.error _ => []
  if options.init || profiles.isEmpty then
    if options.profile.isSome then
      (Except.error "you may not specify a profile id when initializing a new identity",
        st, [])
    else authInitCmd env st options
  else authAuthenticate env st profiles options

/-! ## Concrete fixtures for witnesses -/

def pidA : ProfileId := ⟨"a"⟩

def pidB : ProfileId := ⟨"b"⟩

def profA : Profile := ⟨pidA, "/home/a"⟩

def profB : Profile := ⟨pidB, "/home/b"⟩

/-- A fully-succeeding `rm` environment with active profile `profA`. -/
def rmEnv0 : RmEnv where
  ctxProfile := Except.ok profA
  readOnly := fun _ => Except.ok ()
  projectGet := fun _ => Except.ok true
  confirm := fun _ => true
  untrack := fun _ => Except.ok ()
  removeDirAll := fun _ => Except.ok ()
  profileGet := fun i => Except.ok ⟨i, "/home/x"⟩
  configOf := fun _ => Except.ok ()
  userNameOf := fun _ => Except.ok "user"
  stdinAtty := true
  secretInput := "pass"
  stdinLine := "pass"
  loadSecretKeyOk := fun _ _ => true
  profileRemove := fun _ => Except.ok ()

/-- A fully-succeeding `auth` environment with active profile `profA`. -/
def authEnv0 : AuthEnv where
  profileList := Except.ok [profA, profB]
  sshAuthSock := Except.ok ()
  gitVersionOk := true
  nameInput := "user"
  passphraseInput := "pass"
  profileCreate := Except.ok (profA, "peer")
  initSshAdd := fun _ => Except.ok ()
  toSigner := fun _ => Except.ok ()
  loadSecretKey := fun _ _ => Except.ok ()
  configSetup := fun _ => Except.ok ()
  keysStorage := fun _ => Except.ok ()
  personCreate := fun _ _ => Except.ok "urn"
  personSetLocal := Except.ok ()
  ctxProfile := Except.ok profA
  readOnly := fun _ => Except.ok ()
  configOf := fun _ => Except.ok ()
  configUser := fun _ => Except.ok none
  userNameOf := fun _ => Except.ok "user"
  profileSelect := none
  profileSet := fun _ => Except.ok ()
  stdinAtty := true
  secretInput := "pass"
  stdinLine := "pass"
  agentQueryOk := true
  addOk := fun _ => true

end Radicle

namespace Radicle

/-! ## Claims -/

/-- C1: a removal request whose target profile id equals the active
profile's id fails with the CannotRemoveActive error before any
confirmation prompt, credential input, or filesystem mutation: the whole
trace is the initial warning banner. -/
theorem rm_active_profile_guard (env : RmEnv) (opts : RmOptions) (p : Profile)
    (hctx : env.ctxProfile = Except.ok p)
    (hobj : opts.object = Object.Profile p.id) :
    (rmRun env opts).1 = Except.error "Cannot remove active profile; see `rad auth --help`" ∧
    (rmRun env opts).2 = [Effect.warning "Experimental tool; use at your own risk!"] := by
  simp [rmRun, hobj, hctx]

/-- Witness for C1 at a concrete environment and target. -/
theorem rm_active_profile_guard_witness :
    (rmRun rmEnv0 ⟨Object.Profile pidA, true⟩).1 =
      Except.error "Cannot remove active profile; see `rad auth --help`" ∧
    (rmRun rmEnv0 ⟨Object.Profile pidA, true⟩).2 =
      [Effect.warning "Experimental tool; use at your own risk!"] :=
  rm_active_profile_guard rmEnv0 ⟨Object.Profile pidA, true⟩ profA rfl rfl

/-- C3: the Object classifier is total (it always yields one of the three
variants), and project-reference syntax takes precedence: a string both
parsers accept is classified as Project; profile-id syntax is only
consulted when the urn parser fails; both failing yields Unknown. -/
theorem object_classifier_total_precedence (parseUrn : String → Option Urn)
    (parseProfileId : String → Option ProfileId) (s : String) :
    (∀ u, parseUrn s = some u →
      Object.fromStr parseUrn parseProfileId s = Object.Project u) ∧
    (parseUrn s = none → ∀ i, parseProfileId s = some i →
      Object.fromStr parseUrn parseProfileId s = Object.Profile i) ∧
    (parseUrn s = none → parseProfileId s = none →
      Object.fromStr parseUrn parseProfileId s = Object.Unknown s) := by
  refine ⟨fun u hu => ?_, fun hu i hi => ?_, fun hu hi => ?_⟩ <;>
    simp [Object.fromStr, hu]
  · simp [hi]
  · simp [hi]

/-- Witness for C3: a string accepted by both parsers is a Project; the
other two variants are reached exactly on the corresponding failures. -/
theorem object_classifier_total_precedence_witness :
    Object.fromStr (fun s => some ⟨s⟩) (fun s => some ⟨s⟩) "x" = Object.Project ⟨"x"⟩ ∧
    Object.fromStr (fun _ => none) (fun s => some ⟨s⟩) "x" = Object.Profile ⟨"x"⟩ ∧
    Object.fromStr (fun _ => none) (fun _ => none) "x" = Object.Unknown "x" :=
  ⟨(object_classifier_total_precedence (fun s => some ⟨s⟩) (fun s => some ⟨s⟩) "x").1 ⟨"x"⟩ rfl,
   (object_classifier_total_precedence (fun _ => none) (fun s => some ⟨s⟩) "x").2.1 rfl ⟨"x"⟩ rfl,
   (object_classifier_total_precedence (fun _ => none) (fun _ => none) "x").2.2 rfl rfl⟩

/-- C2: on an existing non-active profile that passes confirmation, the
Gated Remover removes the profile's persisted state exactly when the
supplied passphrase unlocks the local secret key; a failing key load
stops removal and reports the invalid-passphrase error. -/
theorem rm_profile_credential_gate (env : RmEnv) (opts : RmOptions)
    (p target : Profile) (i : ProfileId) (u : String)
    (hobj : opts.object = Object.Profile i)
    (hctx : env.ctxProfile = Except.ok p)
    (hact : p.id ≠ i)
    (hget : env.profileGet i = Except.ok target)
    (hro : env.readOnly target = Except.ok ())
    (hcfg : env.configOf target = Except.ok ())
    (hun : env.userNameOf target = Except.ok u)
    (hconf : ∀ m, env.confirm m = true) :
    (env.loadSecretKeyOk target
        (obtainedSecret env.stdinAtty env.secretInput env.stdinLine) = true →
      Effect.removeProfile i ∈ (rmRun env opts).2 ∧
      (env.profileRemove target = Except.ok () → (rmRun env opts).1 = Except.ok ())) ∧
    (env.loadSecretKeyOk target
        (obtainedSecret env.stdinAtty env.secretInput env.stdinLine) = false →
      (rmRun env opts).1 = Except.error "Invalid passphrase supplied." ∧
      Effect.removeProfile i ∉ (rmRun env opts).2) := by
  constructor
  · intro hload
    cases hrem : env.profileRemove target with
    | error e =>
      constructor
      · simp [rmRun, hobj, hctx, hact, hget, hro, hcfg, hun, hconf, hload, hrem]
      · intro hok; exact absurd hok (by simp)
    | ok _ =>
      constructor
      · simp [rmRun, hobj, hctx, hact, hget, hro, hcfg, hun, hconf, hload, hrem]
      · intro _
        simp [rmRun, hobj, hctx, hact, hget, hro, hcfg, hun, hconf, hload, hrem]
  · intro hload
    cases ha : env.stdinAtty <;> simp [obtainedSecret, ha] at hload <;>
      cases hp : opts.prompt <;>
        simp [rmRun, hobj, hctx, hact, hget, hro, hcfg, hun, hconf, hp, ha,
          secretEffect, obtainedSecret, hload]

/-- Witness for C2: with a valid passphrase the profile is removed; with
an invalid one the run fails and no removal effect occurs. -/
theorem rm_profile_credential_gate_witness :
    (Effect.removeProfile pidB ∈ (rmRun rmEnv0 ⟨Object.Profile pidB, true⟩).2 ∧
      (rmRun rmEnv0 ⟨Object.Profile pidB, true⟩).1 = Except.ok ()) ∧
    ((rmRun { rmEnv0 with loadSecretKeyOk := fun _ _ => false }
        ⟨Object.Profile pidB, true⟩).1 = Except.error "Invalid passphrase supplied." ∧
      Effect.removeProfile pidB ∉
        (rmRun { rmEnv0 with loadSecretKeyOk := fun _ _ => false }
          ⟨Object.Profile pidB, true⟩).2) := by
  constructor
  · have h := (rm_profile_credential_gate rmEnv0 ⟨Object.Profile pidB, true⟩ profA
      ⟨pidB, "/home/x"⟩ pidB "user" rfl rfl (by decide) rfl rfl rfl rfl
      (fun _ => rfl)).1 rfl
    exact ⟨h.1, h.2 rfl⟩
  · exact (rm_profile_credential_gate { rmEnv0 with loadSecretKeyOk := fun _ _ => false }
      ⟨Object.Profile pidB, true⟩ profA ⟨pidB, "/home/x"⟩ pidB "user" rfl rfl
      (by decide) rfl rfl rfl rfl (fun _ => rfl)).2 rfl

/-- C9: with the confirm flag set, a declined confirmation ends either
removal variant with success and a trace free of mutations and credential
prompts. -/
theorem rm_decline_confirmation_halts (env : RmEnv) (opts : RmOptions)
    (hprompt : opts.prompt = true)
    (hconf : ∀ m, env.confirm m = false)
    (hready :
      (∃ urn p, opts.object = Object.Project urn ∧ env.ctxProfile = Except.ok p ∧
        env.readOnly p = Except.ok () ∧ env.projectGet urn = Except.ok true) ∨
      (∃ i p target u, opts.object = Object.Profile i ∧ env.ctxProfile = Except.ok p ∧
        p.id ≠ i ∧ env.profileGet i = Except.ok target ∧
        env.readOnly target = Except.ok () ∧ env.configOf target = Except.ok () ∧
        env.userNameOf target = Except.ok u)) :
    (rmRun env opts).1 = Except.ok () ∧ cleanTrace (rmRun env opts).2 = true := by
  rcases hready with ⟨urn, p, hobj, hctx, hro, hpg⟩ |
    ⟨i, p, target, u, hobj, hctx, hact, hget, hro, hcfg, hun⟩
  · simp [rmRun, hobj, hctx, hro, hpg, hprompt, hconf, cleanTrace,
      Effect.isMutation, Effect.isCredentialInput]
  · simp [rmRun, hobj, hctx, hact, hget, hro, hcfg, hun, hprompt, hconf,
      cleanTrace, Effect.isMutation, Effect.isCredentialInput]

/-- Witness for C9: declining the prompt on an existing project leaves
result success and a clean trace. -/
theorem rm_decline_confirmation_halts_witness :
    (rmRun { rmEnv0 with confirm := fun _ => false }
        ⟨Object.Project ⟨"u"⟩, true⟩).1 = Except.ok () ∧
    cleanTrace (rmRun { rmEnv0 with confirm := fun _ => false }
        ⟨Object.Project ⟨"u"⟩, true⟩).2 = true :=
  rm_decline_confirmation_halts { rmEnv0 with confirm := fun _ => false }
    ⟨Object.Project ⟨"u"⟩, true⟩ rfl (fun _ => rfl)
    (Or.inl ⟨⟨"u"⟩, profA, rfl, rfl, rfl, rfl⟩)

/-- C4: a name containing whitespace makes `auth::init` fail validation
before the keypair is generated, the profile is created, the key is
provisioned or the configuration is initialized: the agent state is
unchanged and the trace holds no mutation and no credential input. -/
theorem init_whitespace_name_rejected (env : AuthEnv) (st : AgentState)
    (opts : AuthOptions)
    (hws : (resolvedName opts env).data.any rustIsWhitespace = true) :
    (authInitCmd env st opts).1 = Except.error "Name cannot contain whitespaces" ∧
    (authInitCmd env st opts).2.1 = st ∧
    cleanTrace (authInitCmd env st opts).2.2 = true := by
  have hs : sanitize_name (resolvedName opts env) =
      Except.error "Name cannot contain whitespaces" := by
    simp [sanitize_name, hws]
  cases hg : env.gitVersionOk <;> cases hn : opts.name <;>
    simp [authInitCmd, hs, hg, hn, cleanTrace, Effect.isMutation,
      Effect.isCredentialInput]

/-- Witness for C4 at a name holding a space. -/
theorem init_whitespace_name_rejected_witness :
    (authInitCmd authEnv0 [] ⟨true, false, some "user A", some "pass", none⟩).1 =
      Except.error "Name cannot contain whitespaces" ∧
    (authInitCmd authEnv0 [] ⟨true, false, some "user A", some "pass", none⟩).2.1 = [] ∧
    cleanTrace
      (authInitCmd authEnv0 [] ⟨true, false, some "user A", some "pass", none⟩).2.2 =
      true :=
  init_whitespace_name_rejected authEnv0 [] ⟨true, false, some "user A", some "pass", none⟩
    (by decide)

/-- C5: with a loadable active profile, `auth::authenticate` resolves the
target in this order: an explicit id is looked up among the stored
profiles and fails with the profile-not-found error if absent (and selects
the found profile otherwise); else with more than one profile and no
`--active` flag an interactive choice is made whose cancellation ends the
run successfully with no further action; else the active profile is
selected. -/
theorem authenticate_resolution_order (env : AuthEnv) (st : AgentState)
    (profiles : List Profile) (opts : AuthOptions) (active : Profile)
    (hctx : env.ctxProfile = Except.ok active) :
    (∀ i, opts.profile = some i →
      profiles.find? (fun q => decide (q.id = i)) = none →
      (authAuthenticate env st profiles opts).1 =
        Except.error ("profile '" ++ i.id ++ "' not found")) ∧
    (∀ i q, opts.profile = some i →
      profiles.find? (fun q2 => decide (q2.id = i)) = some q →
      selectProfile env profiles opts active = Selection.chosen q) ∧
    (opts.profile = none → profiles.length > 1 → opts.active = false →
      env.profileSelect = none →
      (authAuthenticate env st profiles opts).1 = Except.ok () ∧
      (authAuthenticate env st profiles opts).2.1 = st ∧
      cleanTrace (authAuthenticate env st profiles opts).2.2 = true) ∧
    (opts.profile = none → (profiles.length ≤ 1 ∨ opts.active = true) →
      selectProfile env profiles opts active = Selection.chosen active) := by
  refine ⟨fun i hi hfind => ?_, fun i q hi hfind => ?_,
    fun hnone hlen hact hsel => ?_, fun hnone hrest => ?_⟩
  · simp [authAuthenticate, selectProfile, hctx, hi, hfind]
  · simp [selectProfile, hi, hfind]
  · simp [authAuthenticate, selectProfile, hctx, hnone, hlen, hact, hsel,
      cleanTrace, Effect.isMutation, Effect.isCredentialInput]
  · rcases hrest with hlen | hact
    · have : ¬ profiles.length > 1 := by omega
      simp [selectProfile, hnone, this]
    · simp [selectProfile, hnone, hact]

/-- Witness for C5: three stored profiles, no explicit id, no `--active`,
and a cancelled selection end the run successfully with no further
action. -/
theorem authenticate_resolution_order_witness :
    (authAuthenticate authEnv0 [] [profA, profB] ⟨false, false, none, none, none⟩).1 =
      Except.ok () ∧
    (authAuthenticate authEnv0 [] [profA, profB] ⟨false, false, none, none, none⟩).2.1 =
      [] ∧
    cleanTrace
      (authAuthenticate authEnv0 [] [profA, profB]
        ⟨false, false, none, none, none⟩).2.2 = true :=
  (authenticate_resolution_order authEnv0 [] [profA, profB]
    ⟨false, false, none, none, none⟩ profA rfl).2.2.1 rfl (by decide) rfl rfl

/-- C6: provisioning is idempotent. On a profile whose key the agent
already holds, the provisioning block performs no registration and no
credential prompt and only reports that the key is already present, with
the agent state unchanged; and two provisioning calls in a row register
the key with the agent at most once, from any starting state. -/
theorem ensure_ready_idempotent (env : AuthEnv) (st : AgentState) (p : Profile)
    (hsock : env.sshAuthSock = Except.ok ())
    (hq : env.agentQueryOk = true)
    (hheld : p.id ∈ st) :
    ensureReady env st p =
      (Except.ok (), st, [Effect.successMsg "Signing key already in ssh-agent"]) ∧
    ∀ st0 : AgentState,
      addCount ((ensureReady env st0 p).2.2 ++
        (ensureReady env (ensureReady env st0 p).2.1 p).2.2) ≤ 1 := by
  constructor
  · simp [ensureReady, hsock, hq, hheld]
  · intro st0
    cases hs : env.sshAuthSock with
    | error e => simp [ensureReady, hs, addCount]
    | ok _ =>
      cases hq2 : env.agentQueryOk
      · simp [ensureReady, hs, hq2, addCount]
      · by_cases hmem : p.id ∈ st0
        · simp [ensureReady, hs, hq2, hmem, addCount, Effect.isAgentAdd]
        · cases hatty : env.stdinAtty <;> cases hadd : env.addOk p.id <;>
            simp [ensureReady, hs, hq2, hmem, hadd, hatty, addCount,
              Effect.isAgentAdd, secretEffect]

/-- Witness for C6: agent already holds the key, so the call is a no-op
report; two calls from the empty agent state add the key once. -/
theorem ensure_ready_idempotent_witness :
    ensureReady authEnv0 [pidA] profA =
      (Except.ok (), [pidA], [Effect.successMsg "Signing key already in ssh-agent"]) ∧
    addCount ((ensureReady authEnv0 [] profA).2.2 ++
      (ensureReady authEnv0 (ensureReady authEnv0 [] profA).2.1 profA).2.2) ≤ 1 := by
  have h := ensure_ready_idempotent authEnv0 [pidA] profA rfl rfl (by decide)
  exact ⟨h.1, h.2 []⟩

/-- C10: when `profile::list()` fails, `auth::run` silently treats the
profile set as empty and takes the identity-initialization path whenever
no explicit profile id is given. -/
theorem run_list_failure_takes_init_path (env : AuthEnv) (st : AgentState)
    (opts : AuthOptions) (e : String)
    (hlist : env.profileList = Except.error e)
    (hpid : opts.profile = none) :
    authRun env st opts = authInitCmd env st opts := by
  simp [authRun, hlist, hpid]

/-- Witness for C10 at a concrete failing-list environment. -/
theorem run_list_failure_takes_init_path_witness :
    authRun { authEnv0 with profileList := Except.error "io" } []
        ⟨false, false, some "user", some "pass", none⟩ =
      authInitCmd { authEnv0 with profileList := Except.error "io" } []
        ⟨false, false, some "user", some "pass", none⟩ :=
  run_list_failure_takes_init_path { authEnv0 with profileList := Except.error "io" } []
    ⟨false, false, some "user", some "pass", none⟩ "io" rfl rfl

/-- Trace shape of `authInitTail`: it only appends effects to its input
trace, and none of the appended effects is an agent registration. -/
theorem authInitTail_trace (env : AuthEnv) (st : AgentState) (t : List Effect)
    (prof : Profile) (peer nm : String) :
    ∃ s, (authInitTail env st t prof peer nm).2.2 = t ++ s ∧
      (s.all fun e => !e.isAgentAdd) = true := by
  unfold authInitTail
  cases hc : env.configSetup prof with
  | error e => exact ⟨[], by simp, by simp⟩
  | ok u =>
    cases hk : env.keysStorage prof with
    | error e => exact ⟨[Effect.configSetup prof.id], by simp, by simp [Effect.isAgentAdd]⟩
    | ok u2 =>
      cases hpc : env.personCreate prof nm with
      | error e => exact ⟨[Effect.configSetup prof.id], by simp, by simp [Effect.isAgentAdd]⟩
      | ok urn =>
        cases hsl : env.personSetLocal with
        | error e =>
          exact ⟨[Effect.configSetup prof.id, Effect.createPerson],
            by simp, by simp [Effect.isAgentAdd]⟩
        | ok u3 =>
          exact ⟨[Effect.configSetup prof.id, Effect.createPerson, Effect.setLocalPerson,
            Effect.successMsg ("Profile " ++ prof.id.id ++ " created."), Effect.blank,
            Effect.info ("Your radicle Peer ID is " ++ peer),
            Effect.info ("Your personal URN is " ++ urn), Effect.blank, Effect.tip],
            by simp, by simp [Effect.isAgentAdd]⟩

/-- Effects of the input trace survive `authInitTail`. -/
theorem authInitTail_mem (env : AuthEnv) (st : AgentState) (t : List Effect)
    (prof : Profile) (peer nm : String) (e : Effect) (he : e ∈ t) :
    e ∈ (authInitTail env st t prof peer nm).2.2 := by
  obtain ⟨s, hseq, _⟩ := authInitTail_trace env st t prof peer nm
  rw [hseq]
  exact List.mem_append_left _ he

/-- `authInitTail` introduces no agent registration. -/
theorem authInitTail_no_add (env : AuthEnv) (st : AgentState) (t : List Effect)
    (prof : Profile) (peer nm : String)
    (ht : (t.all fun e => !e.isAgentAdd) = true) :
    ((authInitTail env st t prof peer nm).2.2.all fun e => !e.isAgentAdd) = true := by
  obtain ⟨s, hseq, hsall⟩ := authInitTail_trace env st t prof peer nm
  rw [hseq]
  simp [List.all_append, ht, hsall]

/-- C7 counterexample: an `authenticate` invocation with no reachable
agent performs no in-process fallback at all: it succeeds with an empty
effect trace (no key load, no passphrase prompt, no signer produced). -/
theorem provisioner_no_agent_counterexample :
    ({ authEnv0 with sshAuthSock := Except.error "no agent" } : AuthEnv).sshAuthSock =
      Except.error "no agent" ∧
    authAuthenticate { authEnv0 with sshAuthSock := Except.error "no agent" } []
      [profA, profB] ⟨false, true, none, none, none⟩ = (Except.ok (), [], []) := by
  constructor
  · rfl
  · rfl

/-- C7 (amended): in the identity-initialization path an unreachable
agent makes the provisioner fall back to loading the key into an
in-process signer with the resolved passphrase and register nothing with
the agent; in the authenticate path an unreachable agent skips the
provisioning block entirely (success, no state change, no effect). -/
theorem provisioner_no_agent_fallback (env : AuthEnv) (st : AgentState)
    (opts : AuthOptions) (er : String) (prof : Profile) (peer : String)
    (hsock : env.sshAuthSock = Except.error er)
    (hws : (resolvedName opts env).data.any rustIsWhitespace = false)
    (hcreate : env.profileCreate = Except.ok (prof, peer))
    (hload : env.loadSecretKey prof (resolvedPassphrase opts env) = Except.ok ()) :
    Effect.loadKey prof.id ∈ (authInitCmd env st opts).2.2 ∧
    ((authInitCmd env st opts).2.2.all fun e => !e.isAgentAdd) = true ∧
    ∀ (q : Profile) (st2 : AgentState), ensureReady env st2 q = (Except.ok (), st2, []) := by
  have hs : sanitize_name (resolvedName opts env) =
      Except.ok (resolvedName opts env) := by
    simp [sanitize_name, hws]
  refine ⟨?_, ?_, fun q st2 => by simp [ensureReady, hsock]⟩
  · cases ht : env.toSigner prof
    · simp only [authInitCmd, hs, hcreate, hsock, hload, ht]
      simp
    · simp only [authInitCmd, hs, hcreate, hsock, hload, ht]
      exact authInitTail_mem env st _ prof peer (resolvedName opts env)
        (Effect.loadKey prof.id) (by simp)
  · cases ht : env.toSigner prof
    · simp only [authInitCmd, hs, hcreate, hsock, hload, ht]
      cases hg : env.gitVersionOk <;> cases hn : opts.name <;>
        cases hpp : opts.passphrase <;> simp [hg, hn, hpp, Effect.isAgentAdd]
    · simp only [authInitCmd, hs, hcreate, hsock, hload, ht]
      refine authInitTail_no_add env st _ prof peer (resolvedName opts env) ?_
      cases hg : env.gitVersionOk <;> cases hn : opts.name <;>
        cases hpp : opts.passphrase <;> simp [hg, hn, hpp, Effect.isAgentAdd]

set_option maxHeartbeats 1000000 in
/-- Helper for C8: while the init flag is still unset, an argument
vector that contains the literal `--name` or `--passphrase` and no
`--init` can never parse successfully, whatever the rest of the parser
state (assuming neither literal is itself a valid profile id). -/
theorem authParseGo_no_init (pid : String → Option ProfileId)
    (hn : pid "--name" = none) (hp : pid "--passphrase" = none) :
    ∀ (args : List String) (sep act : Bool) (name pw : Option String)
      (prof : Option ProfileId),
      ("--name" ∈ args ∨ "--passphrase" ∈ args) → "--init" ∉ args →
      ∀ o, authParseGo pid args none sep false act name pw prof ≠ Except.ok o := by
  intro args
  induction args with
  | nil =>
    intro sep act name pw prof hmem hni o
    simp at hmem
  | cons a rest ih =>
    intro sep act name pw prof hmem hni o
    have hnia : a ≠ "--init" := fun h => hni (by simp [h])
    have hnir : "--init" ∉ rest := fun h => hni (List.mem_cons_of_mem a h)
    have hmem2 : a = "--name" ∨ a = "--passphrase" ∨
        ("--name" ∈ rest ∨ "--passphrase" ∈ rest) := by
      rcases hmem with h | h <;> rcases List.mem_cons.mp h with h2 | h2
      · exact Or.inl h2.symm
      · exact Or.inr (Or.inr (Or.inl h2))
      · exact Or.inr (Or.inl h2.symm)
      · exact Or.inr (Or.inr (Or.inr h2))
    simp only [authParseGo]
    by_cases hc1 : (sep || !dashPrefixed a || a == "-") = true
    · rw [if_pos hc1]
      cases hpa : pid a with
      | none => exact fun h => Except.noConfusion h
      | some v =>
        rcases hmem2 with rfl | rfl | hm
        · rw [hn] at hpa; exact Option.noConfusion hpa
        · rw [hp] at hpa; exact Option.noConfusion hpa
        · exact ih sep act name pw (some v) hm hnir o
    · rw [if_neg hc1]
      by_cases hc2 : (a == "--") = true
      · rw [if_pos hc2]
        rcases hmem2 with rfl | rfl | hm
        · exact absurd hc2 (by decide)
        · exact absurd hc2 (by decide)
        · exact ih true act name pw prof hm hnir o
      · rw [if_neg hc2]
        by_cases hc3 : (a == "--init") = true
        · exact absurd (eq_of_beq hc3) hnia
        · rw [if_neg hc3]
          by_cases hc4 : (a == "--active") = true
          · rw [if_pos hc4]
            rcases hmem2 with rfl | rfl | hm
            · exact absurd hc4 (by decide)
            · exact absurd hc4 (by decide)
            · exact ih sep true name pw prof hm hnir o
          · rw [if_neg hc4]
            by_cases hc5 : (a == "--name") = true
            · rw [if_pos hc5]
              simp
            · rw [if_neg hc5]
              by_cases hc6 : (a == "--passphrase") = true
              · rw [if_pos hc6]
                simp
              · rw [if_neg hc6]
                by_cases hc7 : (a == "--help") = true
                · rw [if_pos hc7]
                  exact fun h => Except.noConfusion h
                · rw [if_neg hc7]
                  by_cases hc8 : longPrefixed a = true
                  · rw [if_pos hc8]
                    simp only [Bool.false_and]
                    split_ifs <;>
                      first
                        | exact fun h => Except.noConfusion h
                        | exact False.elim (by assumption)
                  · rw [if_neg hc8]
                    exact fun h => Except.noConfusion h

/-- C8 counterexample: the claim accepts `--name` whenever `--init` is
present, but `--init` appearing after `--name` still fails to parse. -/
theorem auth_args_counterexample :
    authFromArgs (fun _ => none) ["--name", "x", "--init"] =
      Except.error "unexpected argument --name" := rfl

/-- C8 (amended): an auth argument vector containing the literal
`--name` or `--passphrase` but no `--init` never parses (given that
neither literal is a valid profile id); and when `--init` precedes them,
`--name <name>` and `--passphrase <phrase>` are accepted and stored in
the parsed options. -/
theorem auth_args_flag_gating (pid : String → Option ProfileId)
    (hn : pid "--name" = none) (hp : pid "--passphrase" = none) :
    (∀ args : List String, ("--name" ∈ args ∨ "--passphrase" ∈ args) →
      "--init" ∉ args → ∀ o, authFromArgs pid args ≠ Except.ok o) ∧
    (∀ n p : String, authFromArgs pid ["--init", "--name", n, "--passphrase", p] =
      Except.ok ⟨true, false, some n, some p, none⟩) := by
  constructor
  · intro args hmem hni o
    exact authParseGo_no_init pid hn hp args false false none none none hmem hni o
  · intro n p
    rfl

/-- Witness for C8 (amended): a vector with `--name` and no `--init`
fails; `--init` first, then `--name` and `--passphrase`, parses. -/
theorem auth_args_flag_gating_witness :
    authFromArgs (fun _ => none) ["--name", "x"] ≠
      Except.ok ⟨false, false, some "x", none, none⟩ ∧
    authFromArgs (fun _ => none) ["--init", "--name", "u", "--passphrase", "s"] =
      Except.ok ⟨true, false, some "u", some "s", none⟩ := by
  constructor
  · exact (auth_args_flag_gating (fun _ => none) rfl rfl).1 ["--name", "x"]
      (Or.inl (by simp)) (by simp) ⟨false, false, some "x", none, none⟩
  · exact (auth_args_flag_gating (fun _ => none) rfl rfl).2 "u" "s"

/-- Witness for C7 (amended) at a concrete no-agent environment. -/
theorem provisioner_no_agent_fallback_witness :
    Effect.loadKey pidA ∈
      (authInitCmd { authEnv0 with sshAuthSock := Except.error "no agent" } []
        ⟨true, false, some "user", some "pass", none⟩).2.2 ∧
    ((authInitCmd { authEnv0 with sshAuthSock := Except.error "no agent" } []
        ⟨true, false, some "user", some "pass", none⟩).2.2.all
      fun e => !e.isAgentAdd) = true ∧
    ensureReady { authEnv0 with sshAuthSock := Except.error "no agent" } [] profB =
      (Except.ok (), [], []) := by
  have h := provisioner_no_agent_fallback
    { authEnv0 with sshAuthSock := Except.error "no agent" } []
    ⟨true, false, some "user", some "pass", none⟩ "no agent" profA "peer"
    rfl (by decide) rfl rfl
  exact ⟨h.1, h.2.1, h.2.2 profB []⟩

end Radicle
